import Mathlib

/-!
Verification of the stateful energy-accounting engine of the
`energy_stats` Home Assistant custom integration
(`custom_components/energy_stats/coordinator.py`).

The engine is shallowly embedded as pure Lean functions over rational
numbers:

* `EngineState` models the coordinator's persisted fields
  (`_energy_sums`, `_energy_baselines`, `_pv_sums`, `_grid_sums`,
  `_last_reset`, `_car_connected_was`) together with the in-memory
  `_last_update` timestamp.  The Python dictionaries are modelled as
  total functions `Key → Option ℚ`, where `none` is an absent entry
  (Python `dict.get` returning the default).
* Timestamps are rationals measured in hours, so that
  `elapsed_h = now - last_update` matches
  `(now - self._last_update).total_seconds() / 3600.0`.
* Sensor acquisition (`get_value` plus the `raw_vals` loop) is modelled
  by `acquire`: a configured sensor is `Reading.val v` (the value after
  the kW/kWh unit normalisation that `get_value` performs),
  `Reading.bad` when its state is unknown/unavailable/unparseable, and
  `Reading.absent` when no entity is configured.  Any `bad` configured
  sensor aborts the cycle (`raise UpdateFailed`), checked in the
  source's `SENSOR_KEYS` iteration order.  The `car_connected` metric is
  the one place the code consumes a boolean ("on"/"off") state, so it
  gets its own reading type.
* Python raises `ZeroDivisionError` on division by zero; the three
  inline divisions of `_async_update_data` are therefore guarded in the
  model and reported as distinct `CycleError` values.  As in Python,
  mutations performed before an abort survive it, so the cycle function
  always returns the (possibly partially updated) state next to the
  `Except` outcome.
* `round(x, 3)` is modelled as decimal round-half-to-even to three
  places on ℚ (`round3`), Python's rounding mode.
* The daily reset instant (`reset_time_utc`, built from the configured
  time of day and the local calendar date / timezone) is supplied to
  each cycle as an input, since the engine only ever compares against
  it.
-/

/-- Keys of the engine's accumulator dictionaries (`_energy_sums`,
`_energy_baselines`, `_pv_sums`, `_grid_sums`). -/
inductive Key where
  | grid_in_energy_daily
  | grid_out_energy_daily
  | pv_energy_daily
  | car_charging_energy
  | home_energy_daily
  | battery_energy
  deriving DecidableEq

instance : Fintype Key :=
  ⟨⟨{.grid_in_energy_daily, .grid_out_energy_daily, .pv_energy_daily,
     .car_charging_energy, .home_energy_daily, .battery_energy}, by decide⟩,
   by intro k; cases k <;> decide⟩

/-- The logical sensor keys of `SENSOR_KEYS` (in source order). -/
inductive SensorKey where
  | grid_power
  | grid_in_energy
  | grid_out_energy
  | battery_power
  | battery_energy
  | pv_power
  | pv_energy
  | car_charging_power
  | car_charging_limit_power
  | car_charging_energy
  | car_connected
  | car_soc
  deriving DecidableEq

/-- State of one configured numeric metric for a cycle: no entity
configured, configured but unknown/unavailable/unparseable, or a
numeric value (after `get_value`'s kW/kWh normalisation). -/
inductive Reading where
  | absent
  | bad
  | val (v : ℚ)
  deriving DecidableEq

/-- State of the `car_connected` metric, whose sensor yields an
"on"/"off" state that `get_value` turns into a boolean. -/
inductive FlagReading where
  | absent
  | bad
  | val (b : Bool)
  deriving DecidableEq

/-- Inputs of one invocation of `_async_update_data`: the clock, the
computed daily reset instant `reset_time_utc`, and the current state of
every configured sensor. -/
structure CycleInput where
  now : ℚ
  resetInstant : ℚ
  grid_power : Reading
  grid_in_energy : Reading
  grid_out_energy : Reading
  battery_power : Reading
  battery_energy : Reading
  pv_power : Reading
  pv_energy : Reading
  car_charging_power : Reading
  car_charging_limit_power : Reading
  car_charging_energy : Reading
  car_connected : FlagReading
  car_soc : Reading
  deriving DecidableEq

/-- The `raw_vals` dictionary after the acquisition loop succeeded:
`none` for unconfigured metrics, `some v` for configured ones. -/
structure RawVals where
  grid_power : Option ℚ
  grid_in_energy : Option ℚ
  grid_out_energy : Option ℚ
  battery_power : Option ℚ
  battery_energy : Option ℚ
  pv_power : Option ℚ
  pv_energy : Option ℚ
  car_charging_power : Option ℚ
  car_charging_limit_power : Option ℚ
  car_charging_energy : Option ℚ
  car_connected : Option Bool
  car_soc : Option ℚ
  deriving DecidableEq

/-- The coordinator state: the persisted snapshot fields plus the
in-memory `_last_update` timestamp. -/
structure EngineState where
  last_update : ℚ
  energy_sums : Key → Option ℚ
  energy_baselines : Key → Option ℚ
  pv_sums : Key → Option ℚ
  grid_sums : Key → Option ℚ
  last_reset : ℚ
  car_connected_was : Bool

/-- Ways a cycle can abort: `UpdateFailed` for a configured-but-unready
sensor, or a `ZeroDivisionError` at one of the three inline division
sites of `_async_update_data` (battery charge usage factor, home mix
usage fraction, car mix usage fraction). -/
inductive CycleError where
  | unready (k : SensorKey)
  | divZeroBattery
  | divZeroHome
  | divZeroCar
  deriving DecidableEq

/-- The zeroed engine state used when no snapshot exists (coordinator
`__init__` / the empty-store branch): empty dictionaries, and both
timestamps set to the current time `t`. -/
def initState (t : ℚ) : EngineState where
  last_update := t
  energy_sums := fun _ => none
  energy_baselines := fun _ => none
  pv_sums := fun _ => none
  grid_sums := fun _ => none
  last_reset := t
  car_connected_was := false

/-- Round half to even at integer precision (Python's `round` mode). -/
def roundHalfEven (x : ℚ) : ℤ :=
  let n := ⌊x⌋
  let f := x - n
  if f < 1/2 then n
  else if 1/2 < f then n + 1
  else if Even n then n else n + 1

/-- `round(x, 3)`: round to three decimal places, half to even. -/
def round3 (x : ℚ) : ℚ :=
  (roundHalfEven (x * 1000) : ℚ) / 1000

/-- One step of the `raw_vals` acquisition loop for a numeric metric:
an unready configured sensor raises `UpdateFailed` for its key. -/
def acqNum (r : Reading) (k : SensorKey) : Except SensorKey (Option ℚ) :=
  match r with
  | .absent => .ok none
  | .bad => .error k
  | .val v => .ok (some v)

/-- Acquisition step for the boolean `car_connected` metric. -/
def acqFlag (r : FlagReading) (k : SensorKey) : Except SensorKey (Option Bool) :=
  match r with
  | .absent => .ok none
  | .bad => .error k
  | .val b => .ok (some b)

/-- The `raw_vals` loop (coordinator lines 124-138): read every metric
in `SENSOR_KEYS` order; the first configured sensor that is not ready
aborts the whole cycle. -/
def acquire (inp : CycleInput) : Except SensorKey RawVals := do
  let gp ← acqNum inp.grid_power .grid_power
  let gie ← acqNum inp.grid_in_energy .grid_in_energy
  let goe ← acqNum inp.grid_out_energy .grid_out_energy
  let bp ← acqNum inp.battery_power .battery_power
  let be ← acqNum inp.battery_energy .battery_energy
  let pvp ← acqNum inp.pv_power .pv_power
  let pve ← acqNum inp.pv_energy .pv_energy
  let ccp ← acqNum inp.car_charging_power .car_charging_power
  let cclp ← acqNum inp.car_charging_limit_power .car_charging_limit_power
  let cce ← acqNum inp.car_charging_energy .car_charging_energy
  let cc ← acqFlag inp.car_connected .car_connected
  let soc ← acqNum inp.car_soc .car_soc
  pure ⟨gp, gie, goe, bp, be, pvp, pve, ccp, cclp, cce, cc, soc⟩

/-- `result["home_power"]` (line 156): net household draw; absent
readings contribute 0. -/
def homePowerOf (rv : RawVals) : ℚ :=
  rv.grid_power.getD 0 + rv.pv_power.getD 0 + rv.battery_power.getD 0
    - rv.car_charging_power.getD 0

/-- `_update_energy`: drive an account from its cumulative energy
sensor when present (baseline bookkeeping), otherwise integrate a
positive power reading over the elapsed time. -/
def updateEnergy (s : EngineState) (k : Key) (energyVal powerVal : Option ℚ)
    (elapsed : ℚ) : EngineState :=
  match energyVal with
  | some e =>
    match s.energy_baselines k with
    | none =>
      { s with
        energy_baselines := Function.update s.energy_baselines k (some e)
        energy_sums := Function.update s.energy_sums k (some (max 0 (e - e))) }
    | some b =>
      { s with energy_sums := Function.update s.energy_sums k (some (max 0 (e - b))) }
  | none =>
    match powerVal with
    | some p =>
      if 0 < elapsed ∧ 0 < p then
        { s with
          energy_sums := Function.update s.energy_sums k
            (some (round3 ((s.energy_sums k).getD 0 + p * elapsed))) }
      else s
    | none => s

/-- `_add_mix_energy`: accumulate consumed PV and grid energy for one
mix account.  A `none` grid power aborts the update; a supplied battery
power is folded into the pv/grid powers first; contributions are the
positive parts of the powers times the elapsed hours, optionally scaled
by a usage factor; each sum is floored at 0 after the addition. -/
def addMixEnergy (s : EngineState) (k : Key) (pvPower gridPower : Option ℚ)
    (batteryPower : Option ℚ := none) (batteryPvFactor : Option ℚ := none)
    (elapsed : ℚ := 0) (usageFactor : Option ℚ := none) : EngineState :=
  match gridPower with
  | none => s
  | some grid0 =>
    let pv0 := pvPower.getD 0
    let pg : ℚ × ℚ :=
      match batteryPower with
      | none => (pv0, grid0)
      | some bp =>
        if 0 < bp then
          match batteryPvFactor with
          | some f => (pv0 + f * bp, grid0 + (1 - f) * bp)
          | none => (pv0, grid0 + bp)
        else (pv0, grid0 + bp)
    let pvPart0 := max 0 pg.1 * elapsed
    let gridPart0 := max 0 pg.2 * elapsed
    let pvPart := match usageFactor with | some u => pvPart0 * u | none => pvPart0
    let gridPart := match usageFactor with | some u => gridPart0 * u | none => gridPart0
    let pvNew := (s.pv_sums k).getD 0 + pvPart
    let gridNew := (s.grid_sums k).getD 0 + gridPart
    { s with
      pv_sums := Function.update s.pv_sums k (some (if pvNew < 0 then 0 else pvNew))
      grid_sums := Function.update s.grid_sums k (some (if gridNew < 0 then 0 else gridNew)) }

/-- `_mix_ratio`: the solar fraction of an account's accumulated
consumption, 0 when both sums are 0. -/
def mixFraction (s : EngineState) (k : Key) : ℚ :=
  let pv := (s.pv_sums k).getD 0
  let grid := (s.grid_sums k).getD 0
  if 0 < pv + grid then pv / (pv + grid) else 0

/-- The home/EV usage fraction expression of lines 235 and 248:
`home_power / (home_power + car_charging_power)` (with the car part
taken as `carPower` itself at line 248). -/
def homeUsageFactor (homePower carPower : ℚ) : ℚ :=
  homePower / (homePower + carPower)

/-- Battery mix update (lines 209-226).  Returns the updated state and
the value stored into `result["battery_energy_mix"]`, or the
`ZeroDivisionError` of the charge branch.  Note that at the discharge
call site `result.get("battery_energy_mix", 0.0)` reads a key that is
only assigned *after* this block (line 225), so it always yields the
0.0 default here; the model keeps that read explicit. -/
def batteryMixPhase (s : EngineState) (rv : RawVals) (elapsed : ℚ) :
    Except CycleError (EngineState × Option ℚ) :=
  match rv.battery_power with
  | none => .ok (s, none)
  | some bp =>
    if 0 < bp then
      -- Discharge: result["battery_energy_mix"] has not been set yet,
      -- so the .get default 0.0 is used for the mix factor.
      let bem := (none : Option ℚ).getD 0
      let s1 := addMixEnergy s .battery_energy
        (some (-bp * bem)) (some (-bp * (1 - bem))) none none elapsed none
      .ok (s1, some (mixFraction s1 .battery_energy))
    else
      -- Charge: usage_factor = -battery_power / (pv_power + grid_power).
      let denom := rv.pv_power.getD 0 + rv.grid_power.getD 0
      if denom = 0 then .error .divZeroBattery
      else
        let s1 := addMixEnergy s .battery_energy
          (some (rv.pv_power.getD 0)) (some (rv.grid_power.getD 0)) none none
          elapsed (some (-bp / denom))
        .ok (s1, some (mixFraction s1 .battery_energy))

/-- Home consumption mix update (lines 228-238).  `bem` is
`result["battery_energy_mix"]` as left by the battery phase. -/
def homeMixPhase (s : EngineState) (rv : RawVals) (homePower : ℚ)
    (bem : Option ℚ) (elapsed : ℚ) : Except CycleError EngineState :=
  let carP := rv.car_charging_power.getD 0
  if homePower + carP = 0 then .error .divZeroHome
  else
    .ok (addMixEnergy s .home_energy_daily
      (some (rv.pv_power.getD 0)) (some (rv.grid_power.getD 0))
      (some (rv.battery_power.getD 0)) (some (bem.getD 0)) elapsed
      (some (homeUsageFactor homePower carP)))

/-- Car charging mix update (lines 240-251), performed only when the
EV charging power reading is present. -/
def carMixPhase (s : EngineState) (rv : RawVals) (homePower : ℚ)
    (bem : Option ℚ) (elapsed : ℚ) : Except CycleError EngineState :=
  match rv.car_charging_power with
  | none => .ok s
  | some cp =>
    if homePower + cp = 0 then .error .divZeroCar
    else
      .ok (addMixEnergy s .car_charging_energy
        (some (rv.pv_power.getD 0)) (some (rv.grid_power.getD 0))
        (some (rv.battery_power.getD 0)) (some (bem.getD 0)) elapsed
        (some (cp / (homePower + cp))))

/-- The daily reset guard of line 263:
`now >= reset_time_utc and self._last_reset < reset_time_utc`. -/
def dailyResetFires (now resetInstant lastReset : ℚ) : Bool :=
  decide (resetInstant ≤ now) && decide (lastReset < resetInstant)

/-- The daily reset block (lines 253-269): when the guard fires, the
four dictionaries are rebuilt keeping only `car_charging_energy`'s
total and baseline and `battery_energy`'s mix sums (each defaulted to
0.0 when missing), and `last_reset` becomes `now`. -/
def dailyResetStep (now resetInstant : ℚ) (s : EngineState) : EngineState :=
  if dailyResetFires now resetInstant s.last_reset then
    { s with
      energy_sums := fun k =>
        if k = Key.car_charging_energy then
          some ((s.energy_sums Key.car_charging_energy).getD 0)
        else none
      energy_baselines := fun k =>
        if k = Key.car_charging_energy then
          some ((s.energy_baselines Key.car_charging_energy).getD 0)
        else none
      pv_sums := fun k =>
        if k = Key.battery_energy then
          some ((s.pv_sums Key.battery_energy).getD 0)
        else none
      grid_sums := fun k =>
        if k = Key.battery_energy then
          some ((s.grid_sums Key.battery_energy).getD 0)
        else none
      last_reset := now }
  else s

/-- The car charging session reset (lines 271-276).  `resCarConnected`
is `result["car_connected"]` (absent when the metric is unconfigured)
and `resultCarEnergy` is `result["car_charging_energy"]` as captured by
`result.update(self._energy_sums)` at line 200, i.e. the account's
just-computed total, before the daily reset block ran. -/
def sessionResetStep (s : EngineState) (resCarConnected : Option Bool)
    (resultCarEnergy : Option ℚ) : EngineState :=
  let connectedNow := resCarConnected.getD false
  let s1 :=
    if !s.car_connected_was && connectedNow then
      { s with
        energy_sums := Function.update s.energy_sums Key.car_charging_energy (some 0)
        energy_baselines := Function.update s.energy_baselines Key.car_charging_energy
          (some (resultCarEnergy.getD 0)) }
    else s
  { s1 with car_connected_was := connectedNow }

/-- The "Momentary values" battery-energy store (lines 165-166) and
the "Energies" block (lines 169-198): the raw battery energy reading is
written straight into `_energy_sums`, then the five `_update_energy`
calls run. -/
def energiesPhase (s : EngineState) (rv : RawVals) (elapsed : ℚ) : EngineState :=
  let s2 :=
    match rv.battery_energy with
    | some v => { s with energy_sums := Function.update s.energy_sums Key.battery_energy (some v) }
    | none => s
  let s3 := updateEnergy s2 .grid_in_energy_daily rv.grid_in_energy rv.grid_power elapsed
  let s4 := updateEnergy s3 .grid_out_energy_daily rv.grid_out_energy
    (rv.grid_power.map (fun v => -v)) elapsed
  let s5 := updateEnergy s4 .pv_energy_daily rv.pv_energy rv.pv_power elapsed
  let s6 := updateEnergy s5 .car_charging_energy rv.car_charging_energy
    rv.car_charging_power elapsed
  updateEnergy s6 .home_energy_daily none (some (homePowerOf rv)) elapsed

/-- One invocation of `_async_update_data` (after the snapshot has been
loaded).  Exceptions leave earlier mutations in place, so the function
always returns the final state, next to the cycle outcome. -/
def updateData (s : EngineState) (inp : CycleInput) :
    EngineState × Except CycleError Unit :=
  let elapsed := inp.now - s.last_update
  let s1 := { s with last_update := inp.now }
  match acquire inp with
  | .error k => (s1, .error (.unready k))
  | .ok rv =>
    let homePower := homePowerOf rv
    let s7 := energiesPhase s1 rv elapsed
    -- line 200: result.update(self._energy_sums)
    let resultCarEnergy := s7.energy_sums Key.car_charging_energy
    match batteryMixPhase s7 rv elapsed with
    | .error e => (s7, .error e)
    | .ok (s8, bem) =>
      match homeMixPhase s8 rv homePower bem elapsed with
      | .error e => (s8, .error e)
      | .ok s9 =>
        match carMixPhase s9 rv homePower bem elapsed with
        | .error e => (s9, .error e)
        | .ok s10 =>
          let s11 := dailyResetStep inp.now inp.resetInstant s10
          let s12 := sessionResetStep s11 rv.car_connected resultCarEnergy
          (s12, .ok ())

/-- Run a sequence of cycles; each cycle's state survives whether or
not the cycle aborted (as the Python object's fields do). -/
def runCycles (s : EngineState) : List CycleInput → EngineState
  | [] => s
  | inp :: rest => runCycles (updateData s inp).1 rest

/-- Iterate only the daily-reset manager over a list of cycle times
(fixed reset instant), recording for each cycle whether the reset
guard fired. -/
def resetRun (resetInstant : ℚ) (s : EngineState) : List ℚ → List Bool
  | [] => []
  | t :: ts =>
    dailyResetFires t resetInstant s.last_reset ::
      resetRun resetInstant (dailyResetStep t resetInstant s) ts

/-! ### Basic lemmas about the arithmetic helpers -/

/-- Evaluation rule for `round3` at inputs that are exact multiples of
1/1000. -/
theorem round3_eq (x : ℚ) (m : ℤ) (h : x * 1000 = (m : ℚ)) :
    round3 x = (m : ℚ) / 1000 := by
  unfold round3 roundHalfEven
  rw [h, Int.floor_intCast]
  norm_num

/-- Rounding half to even never turns a nonnegative number negative. -/
theorem roundHalfEven_nonneg (x : ℚ) (hx : 0 ≤ x) : 0 ≤ roundHalfEven x := by
  unfold roundHalfEven
  have h0 : (0 : ℤ) ≤ ⌊x⌋ := Int.floor_nonneg.mpr hx
  dsimp only
  split
  · exact h0
  · split
    · omega
    · split
      · exact h0
      · omega

/-- `round(x, 3)` preserves nonnegativity. -/
theorem round3_nonneg (x : ℚ) (hx : 0 ≤ x) : 0 ≤ round3 x := by
  unfold round3
  have := roundHalfEven_nonneg (x * 1000) (by positivity)
  positivity

/-! ### Frame lemmas for the elementary state transformers -/

theorem updateEnergy_pv_sums (s : EngineState) (k : Key) (ev pv : Option ℚ)
    (e : ℚ) : (updateEnergy s k ev pv e).pv_sums = s.pv_sums := by
  unfold updateEnergy
  split
  · split <;> rfl
  · split
    · split <;> rfl
    · rfl

theorem updateEnergy_grid_sums (s : EngineState) (k : Key) (ev pv : Option ℚ)
    (e : ℚ) : (updateEnergy s k ev pv e).grid_sums = s.grid_sums := by
  unfold updateEnergy
  split
  · split <;> rfl
  · split
    · split <;> rfl
    · rfl

theorem addMixEnergy_energy_sums (s : EngineState) (k : Key)
    (pv grid bat fac : Option ℚ) (e : ℚ) (u : Option ℚ) :
    (addMixEnergy s k pv grid bat fac e u).energy_sums = s.energy_sums := by
  unfold addMixEnergy
  split <;> rfl

theorem addMixEnergy_energy_baselines (s : EngineState) (k : Key)
    (pv grid bat fac : Option ℚ) (e : ℚ) (u : Option ℚ) :
    (addMixEnergy s k pv grid bat fac e u).energy_baselines = s.energy_baselines := by
  unfold addMixEnergy
  split <;> rfl

theorem addMixEnergy_pv_sums_other (s : EngineState) (k k' : Key)
    (pv grid bat fac : Option ℚ) (e : ℚ) (u : Option ℚ) (h : k' ≠ k) :
    (addMixEnergy s k pv grid bat fac e u).pv_sums k' = s.pv_sums k' := by
  unfold addMixEnergy
  split
  · rfl
  · exact Function.update_noteq h _ _

theorem addMixEnergy_grid_sums_other (s : EngineState) (k k' : Key)
    (pv grid bat fac : Option ℚ) (e : ℚ) (u : Option ℚ) (h : k' ≠ k) :
    (addMixEnergy s k pv grid bat fac e u).grid_sums k' = s.grid_sums k' := by
  unfold addMixEnergy
  split
  · rfl
  · exact Function.update_noteq h _ _

theorem sessionResetStep_pv_sums (s : EngineState) (cc : Option Bool)
    (rce : Option ℚ) : (sessionResetStep s cc rce).pv_sums = s.pv_sums := by
  unfold sessionResetStep
  dsimp only
  split <;> rfl

theorem sessionResetStep_grid_sums (s : EngineState) (cc : Option Bool)
    (rce : Option ℚ) : (sessionResetStep s cc rce).grid_sums = s.grid_sums := by
  unfold sessionResetStep
  dsimp only
  split <;> rfl

theorem dailyResetStep_pv_sums_battery (now R : ℚ) (s : EngineState) (v : ℚ)
    (h : s.pv_sums Key.battery_energy = some v) :
    (dailyResetStep now R s).pv_sums Key.battery_energy = some v := by
  unfold dailyResetStep
  split <;> simp [h]

theorem dailyResetStep_grid_sums_battery (now R : ℚ) (s : EngineState) (v : ℚ)
    (h : s.grid_sums Key.battery_energy = some v) :
    (dailyResetStep now R s).grid_sums Key.battery_energy = some v := by
  unfold dailyResetStep
  split <;> simp [h]

/-! ### The nonnegativity invariant -/

/-- Nonnegativity of the accumulators: every energy total other than
the directly-mirrored `battery_energy` entry, and every mix sum, is
nonnegative (reading absent entries as the engine does, with default
0). -/
def NonnegInv (s : EngineState) : Prop :=
  (∀ k, k ≠ Key.battery_energy → 0 ≤ (s.energy_sums k).getD 0) ∧
  (∀ k, 0 ≤ (s.pv_sums k).getD 0) ∧
  (∀ k, 0 ≤ (s.grid_sums k).getD 0)

theorem initState_nonnegInv (t : ℚ) : NonnegInv (initState t) := by
  refine ⟨fun k _ => ?_, fun k => ?_, fun k => ?_⟩ <;> simp [initState]

theorem updateEnergy_nonnegInv (s : EngineState) (k : Key) (ev pv : Option ℚ)
    (e : ℚ) (h : NonnegInv s) : NonnegInv (updateEnergy s k ev pv e) := by
  obtain ⟨h1, h2, h3⟩ := h
  refine ⟨?_, ?_, ?_⟩
  · intro k' hk'
    unfold updateEnergy
    split
    · split
      · rcases eq_or_ne k' k with rfl | hne
        · simp only [Function.update_same, Option.getD_some]
          exact le_max_left 0 _
        · simpa only [Function.update_noteq hne] using h1 k' hk'
      · rcases eq_or_ne k' k with rfl | hne
        · simp only [Function.update_same, Option.getD_some]
          exact le_max_left 0 _
        · simpa only [Function.update_noteq hne] using h1 k' hk'
    · split
      · split
        · rename_i p hcond
          rcases eq_or_ne k' k with rfl | hne
          · simp only [Function.update_same, Option.getD_some]
            refine round3_nonneg _ ?_
            obtain ⟨he, hp⟩ := hcond
            have hpe : 0 < p * e := mul_pos hp he
            have := h1 k' hk'
            linarith
          · simpa only [Function.update_noteq hne] using h1 k' hk'
        · exact h1 k' hk'
      · exact h1 k' hk'
  · intro k'
    rw [updateEnergy_pv_sums]
    exact h2 k'
  · intro k'
    rw [updateEnergy_grid_sums]
    exact h3 k'

theorem addMixEnergy_pv_sums_nonneg (s : EngineState) (k : Key)
    (pv grid bat fac : Option ℚ) (e : ℚ) (u : Option ℚ)
    (h : ∀ k', 0 ≤ (s.pv_sums k').getD 0) :
    ∀ k', 0 ≤ ((addMixEnergy s k pv grid bat fac e u).pv_sums k').getD 0 := by
  intro k'
  unfold addMixEnergy
  split
  · exact h k'
  · dsimp only
    rcases eq_or_ne k' k with rfl | hne
    · simp only [Function.update_same, Option.getD_some]
      split
      · exact le_refl 0
      · exact le_of_not_lt (by assumption)
    · simpa only [Function.update_noteq hne] using h k'

theorem addMixEnergy_grid_sums_nonneg (s : EngineState) (k : Key)
    (pv grid bat fac : Option ℚ) (e : ℚ) (u : Option ℚ)
    (h : ∀ k', 0 ≤ (s.grid_sums k').getD 0) :
    ∀ k', 0 ≤ ((addMixEnergy s k pv grid bat fac e u).grid_sums k').getD 0 := by
  intro k'
  unfold addMixEnergy
  split
  · exact h k'
  · dsimp only
    rcases eq_or_ne k' k with rfl | hne
    · simp only [Function.update_same, Option.getD_some]
      split
      · exact le_refl 0
      · exact le_of_not_lt (by assumption)
    · simpa only [Function.update_noteq hne] using h k'

theorem addMixEnergy_nonnegInv (s : EngineState) (k : Key)
    (pv grid bat fac : Option ℚ) (e : ℚ) (u : Option ℚ) (h : NonnegInv s) :
    NonnegInv (addMixEnergy s k pv grid bat fac e u) := by
  obtain ⟨h1, h2, h3⟩ := h
  refine ⟨?_, addMixEnergy_pv_sums_nonneg s k pv grid bat fac e u h2,
    addMixEnergy_grid_sums_nonneg s k pv grid bat fac e u h3⟩
  intro k' hk'
  rw [addMixEnergy_energy_sums]
  exact h1 k' hk'

theorem dailyResetStep_nonnegInv (now R : ℚ) (s : EngineState)
    (h : NonnegInv s) : NonnegInv (dailyResetStep now R s) := by
  obtain ⟨h1, h2, h3⟩ := h
  unfold dailyResetStep
  split
  · refine ⟨?_, ?_, ?_⟩
    · intro k' hk'
      dsimp only
      split
      · exact h1 Key.car_charging_energy (by decide)
      · simp
    · intro k'
      dsimp only
      split
      · exact h2 Key.battery_energy
      · simp
    · intro k'
      dsimp only
      split
      · exact h3 Key.battery_energy
      · simp
  · exact ⟨h1, h2, h3⟩

theorem sessionResetStep_nonnegInv (s : EngineState) (cc : Option Bool)
    (rce : Option ℚ) (h : NonnegInv s) : NonnegInv (sessionResetStep s cc rce) := by
  obtain ⟨h1, h2, h3⟩ := h
  unfold sessionResetStep
  dsimp only
  split
  · refine ⟨?_, h2, h3⟩
    intro k' hk'
    rcases eq_or_ne k' Key.car_charging_energy with rfl | hne
    · simp [Function.update_same]
    · simpa only [Function.update_noteq hne] using h1 k' hk'
  · exact ⟨h1, h2, h3⟩

theorem batteryMixPhase_nonnegInv (s : EngineState) (rv : RawVals) (e : ℚ)
    (s' : EngineState) (bem : Option ℚ) (h : NonnegInv s)
    (heq : batteryMixPhase s rv e = .ok (s', bem)) : NonnegInv s' := by
  unfold batteryMixPhase at heq
  split at heq
  · cases heq
    exact h
  · split at heq
    · cases heq
      exact addMixEnergy_nonnegInv _ _ _ _ _ _ _ _ h
    · dsimp only at heq
      split at heq
      · cases heq
      · cases heq
        exact addMixEnergy_nonnegInv _ _ _ _ _ _ _ _ h

theorem homeMixPhase_nonnegInv (s : EngineState) (rv : RawVals) (hp : ℚ)
    (bem : Option ℚ) (e : ℚ) (s' : EngineState) (h : NonnegInv s)
    (heq : homeMixPhase s rv hp bem e = .ok s') : NonnegInv s' := by
  unfold homeMixPhase at heq
  dsimp only at heq
  split at heq
  · cases heq
  · cases heq
    exact addMixEnergy_nonnegInv _ _ _ _ _ _ _ _ h

theorem carMixPhase_nonnegInv (s : EngineState) (rv : RawVals) (hp : ℚ)
    (bem : Option ℚ) (e : ℚ) (s' : EngineState) (h : NonnegInv s)
    (heq : carMixPhase s rv hp bem e = .ok s') : NonnegInv s' := by
  unfold carMixPhase at heq
  split at heq
  · cases heq
    exact h
  · split at heq
    · cases heq
    · cases heq
      exact addMixEnergy_nonnegInv _ _ _ _ _ _ _ _ h

theorem energiesPhase_nonnegInv (s : EngineState) (rv : RawVals) (e : ℚ)
    (h : NonnegInv s) : NonnegInv (energiesPhase s rv e) := by
  unfold energiesPhase
  dsimp only
  refine updateEnergy_nonnegInv _ _ _ _ _ (updateEnergy_nonnegInv _ _ _ _ _
    (updateEnergy_nonnegInv _ _ _ _ _ (updateEnergy_nonnegInv _ _ _ _ _
      (updateEnergy_nonnegInv _ _ _ _ _ ?_))))
  obtain ⟨h1, h2, h3⟩ := h
  split
  · refine ⟨?_, h2, h3⟩
    intro k' hk'
    simpa only [Function.update_noteq hk'] using h1 k' hk'
  · exact ⟨h1, h2, h3⟩

theorem updateData_nonnegInv (s : EngineState) (inp : CycleInput)
    (h : NonnegInv s) : NonnegInv (updateData s inp).1 := by
  unfold updateData
  dsimp only
  split
  · exact h
  · rename_i rv heq
    have h7 : NonnegInv (energiesPhase { s with last_update := inp.now } rv
        (inp.now - s.last_update)) := energiesPhase_nonnegInv _ _ _ h
    split
    · exact h7
    · rename_i s8 bem heq8
      have h8 := batteryMixPhase_nonnegInv _ _ _ _ _ h7 heq8
      split
      · exact h8
      · rename_i s9 heq9
        have h9 := homeMixPhase_nonnegInv _ _ _ _ _ _ h8 heq9
        split
        · exact h9
        · rename_i s10 heq10
          have h10 := carMixPhase_nonnegInv _ _ _ _ _ _ h9 heq10
          exact sessionResetStep_nonnegInv _ _ _
            (dailyResetStep_nonnegInv _ _ _ h10)

theorem runCycles_nonnegInv (s : EngineState) (inps : List CycleInput)
    (h : NonnegInv s) : NonnegInv (runCycles s inps) := by
  induction inps generalizing s with
  | nil => exact h
  | cons inp rest ih => exact ih _ (updateData_nonnegInv _ _ h)

/-! ### Daily reset: exactly one firing per boundary crossing -/

theorem dailyResetStep_not_fires (now R : ℚ) (s : EngineState)
    (h : ¬ dailyResetFires now R s.last_reset = true) :
    dailyResetStep now R s = s := by
  unfold dailyResetStep
  rw [if_neg h]

theorem dailyResetStep_last_reset_fires (now R : ℚ) (s : EngineState)
    (h : dailyResetFires now R s.last_reset = true) :
    (dailyResetStep now R s).last_reset = now := by
  unfold dailyResetStep
  rw [if_pos h]

/-- Once `last_reset` is at or past the reset instant, the guard can
never fire again (for that instant), whatever the cycle times are. -/
theorem resetRun_all_false (R : ℚ) (s : EngineState) (ts : List ℚ)
    (h : R ≤ s.last_reset) :
    ∀ i, (resetRun R s ts).getD i false = false := by
  induction ts generalizing s with
  | nil => intro i; simp [resetRun]
  | cons t ts ih =>
    intro i
    have hf : dailyResetFires t R s.last_reset = false := by
      unfold dailyResetFires
      rw [decide_eq_false (not_lt.mpr h), Bool.and_false]
    have hstep : dailyResetStep t R s = s :=
      dailyResetStep_not_fires t R s (by simp [hf])
    cases i with
    | zero => simp [resetRun, hf]
    | succ j => simpa [resetRun, hstep] using ih s h j

/-- Claim C3: for a sequence of cycle times that crosses the (fixed)
daily reset instant exactly once — times before index `k` lie strictly
before the instant, times from index `k` on lie at or after it — and a
state whose `last_reset` lies before the instant, the reset guard of
line 263 fires at cycle `k` and at no other cycle, regardless of the
cycle cadence. -/
theorem claim3_daily_reset_once (R : ℚ) (s : EngineState) (ts : List ℚ) (k : ℕ)
    (h0 : s.last_reset < R) (hk : k < ts.length)
    (hbefore : ∀ i, i < k → ts.getD i 0 < R)
    (hafter : ∀ i, k ≤ i → i < ts.length → R ≤ ts.getD i 0) :
    ∀ i, i < ts.length → ((resetRun R s ts).getD i false = true ↔ i = k) := by
  induction ts generalizing s k with
  | nil => exact absurd hk (by simp)
  | cons t ts ih =>
    intro i hi
    have hcons : resetRun R s (t :: ts) =
        dailyResetFires t R s.last_reset ::
          resetRun R (dailyResetStep t R s) ts := rfl
    cases k with
    | zero =>
      have hRt : R ≤ t := by simpa using hafter 0 (le_refl 0) (by simp)
      have hf : dailyResetFires t R s.last_reset = true := by
        simp [dailyResetFires, hRt, h0]
      cases i with
      | zero =>
        rw [hcons, List.getD_cons_zero, hf]
        simp
      | succ j =>
        have hlr : R ≤ (dailyResetStep t R s).last_reset := by
          rw [dailyResetStep_last_reset_fires t R s hf]
          exact hRt
        have hfalse := resetRun_all_false R (dailyResetStep t R s) ts hlr j
        rw [hcons, List.getD_cons_succ, hfalse]
        simp
    | succ k' =>
      have hlt : t < R := by simpa using hbefore 0 (Nat.succ_pos k')
      have hf : dailyResetFires t R s.last_reset = false := by
        unfold dailyResetFires
        rw [decide_eq_false (not_le.mpr hlt), Bool.false_and]
      have hstep : dailyResetStep t R s = s :=
        dailyResetStep_not_fires _ _ _ (by simp [hf])
      cases i with
      | zero =>
        rw [hcons, List.getD_cons_zero, hf]
        simp
      | succ j =>
        have hk' : k' < ts.length := by simpa using hk
        have hb' : ∀ i, i < k' → ts.getD i 0 < R := by
          intro i hi'
          simpa using hbefore (i + 1) (Nat.succ_lt_succ hi')
        have ha' : ∀ i, k' ≤ i → i < ts.length → R ≤ ts.getD i 0 := by
          intro i hle hlen
          simpa using hafter (i + 1) (Nat.succ_le_succ hle) (Nat.succ_lt_succ hlen)
        have hrec := ih s k' h0 hk' hb' ha' j (by simpa using hi)
        rw [hcons, List.getD_cons_succ, hstep, hrec]
        omega

/-! ### Claims about the energy integrator -/

/-- Claim C6: for an account updated with a non-null cumulative energy
reading, the first observation captures the reading as baseline and
yields total 0; every later observation yields
total = max(0, reading − baseline). -/
theorem claim6_cumulative_baseline (s : EngineState) (k : Key) (r : ℚ)
    (p : Option ℚ) (e : ℚ) :
    (s.energy_baselines k = none →
      (updateEnergy s k (some r) p e).energy_baselines k = some r ∧
      (updateEnergy s k (some r) p e).energy_sums k = some 0) ∧
    (∀ b, s.energy_baselines k = some b →
      (updateEnergy s k (some r) p e).energy_baselines k = some b ∧
      (updateEnergy s k (some r) p e).energy_sums k = some (max 0 (r - b))) := by
  constructor
  · intro hb
    unfold updateEnergy
    rw [hb]
    constructor
    · simp
    · simp
  · intro b hb
    unfold updateEnergy
    rw [hb]
    exact ⟨hb, by simp⟩

/-- Witness for C6, replaying Scenario B: a cumulative sensor reading
5000 Wh at baseline capture yields total 0, and reading 5750 Wh on the
next cycle yields total 750 Wh. -/
theorem claim6_cumulative_baseline_witness :
    (updateEnergy (initState 0) Key.grid_in_energy_daily (some 5000) none 0).energy_sums
        Key.grid_in_energy_daily = some 0 ∧
    (updateEnergy (updateEnergy (initState 0) Key.grid_in_energy_daily (some 5000) none 0)
        Key.grid_in_energy_daily (some 5750) none 0).energy_sums
        Key.grid_in_energy_daily = some 750 := by
  have h1 := (claim6_cumulative_baseline (initState 0) Key.grid_in_energy_daily
    5000 none 0).1 (by simp [initState])
  have h2 := (claim6_cumulative_baseline
    (updateEnergy (initState 0) Key.grid_in_energy_daily (some 5000) none 0)
    Key.grid_in_energy_daily 5750 none 0).2 5000 h1.1
  refine ⟨h1.2, ?_⟩
  rw [h2.2]
  norm_num

/-- Claim C7: for an account with no cumulative reading, a positive
power reading over positive elapsed time adds power × elapsed to the
total (rounded to 3 decimal places), while a nonpositive power reading
leaves the state untouched. -/
theorem claim7_power_integration (s : EngineState) (k : Key) (p e : ℚ) :
    (0 < p → 0 < e →
      (updateEnergy s k none (some p) e).energy_sums k =
        some (round3 ((s.energy_sums k).getD 0 + p * e))) ∧
    (p ≤ 0 → updateEnergy s k none (some p) e = s) := by
  constructor
  · intro hp he
    unfold updateEnergy
    dsimp only
    rw [if_pos ⟨he, hp⟩]
    simp
  · intro hp
    unfold updateEnergy
    dsimp only
    rw [if_neg (fun h => absurd h.2 (not_lt.mpr hp))]

/-- Witness for C7, replaying Scenario A: grid power 1000 W over one
hour adds exactly 1000 Wh; a negative power reading changes nothing. -/
theorem claim7_power_integration_witness :
    (updateEnergy (initState 0) Key.grid_in_energy_daily none (some 1000) 1).energy_sums
        Key.grid_in_energy_daily = some 1000 ∧
    updateEnergy (initState 0) Key.grid_in_energy_daily none (some (-50)) 1 =
      initState 0 := by
  constructor
  · have h := (claim7_power_integration (initState 0) Key.grid_in_energy_daily
      1000 1).1 (by norm_num) (by norm_num)
    rw [h, round3_eq _ 1000000 (by simp [initState]; norm_num)]
    norm_num
  · exact (claim7_power_integration (initState 0) Key.grid_in_energy_daily
      (-50) 1).2 (by norm_num)

/-! ### Claim about the daily reset frame effect -/

/-- Claim C4: when the daily reset fires, `car_charging_energy`'s total
and baseline and `battery_energy`'s mix sums keep their pre-reset
values (read with the engine's 0.0 default), while every other total,
baseline and mix sum entry is cleared back to its initial empty state —
every later read of a cleared total or mix sum yields the 0.0 default,
and a cleared baseline reads as unset. -/
theorem claim4_daily_reset_frame (now R : ℚ) (s : EngineState)
    (h : dailyResetFires now R s.last_reset = true) :
    (dailyResetStep now R s).energy_sums Key.car_charging_energy =
      some ((s.energy_sums Key.car_charging_energy).getD 0) ∧
    (dailyResetStep now R s).energy_baselines Key.car_charging_energy =
      some ((s.energy_baselines Key.car_charging_energy).getD 0) ∧
    (dailyResetStep now R s).pv_sums Key.battery_energy =
      some ((s.pv_sums Key.battery_energy).getD 0) ∧
    (dailyResetStep now R s).grid_sums Key.battery_energy =
      some ((s.grid_sums Key.battery_energy).getD 0) ∧
    (∀ k, k ≠ Key.car_charging_energy →
      (dailyResetStep now R s).energy_sums k = none ∧
      (dailyResetStep now R s).energy_baselines k = none) ∧
    (∀ k, k ≠ Key.battery_energy →
      (dailyResetStep now R s).pv_sums k = none ∧
      (dailyResetStep now R s).grid_sums k = none) := by
  unfold dailyResetStep
  rw [if_pos h]
  refine ⟨by simp, by simp, by simp, by simp, ?_, ?_⟩
  · intro k hk
    exact ⟨by simp [hk], by simp [hk]⟩
  · intro k hk
    exact ⟨by simp [hk], by simp [hk]⟩

/-- A concrete pre-reset state for the C4 witness: a daily grid total
of 250 Wh and a battery mix pv sum of 800 Wh. -/
def sW4 : EngineState :=
  { initState 0 with
    energy_sums := Function.update (fun _ => none) Key.grid_in_energy_daily (some 250)
    pv_sums := Function.update (fun _ => none) Key.battery_energy (some 800) }

/-- Witness for C4 at a firing reset (now 12, instant 10, last reset
0): the grid total is cleared while the battery pv sum survives. -/
theorem claim4_daily_reset_frame_witness :
    (dailyResetStep 12 10 sW4).energy_sums Key.grid_in_energy_daily = none ∧
    (dailyResetStep 12 10 sW4).pv_sums Key.battery_energy = some 800 := by
  have h := claim4_daily_reset_frame 12 10 sW4
    (by norm_num [dailyResetFires, sW4, initState])
  refine ⟨(h.2.2.2.2.1 Key.grid_in_energy_daily (by decide)).1, ?_⟩
  rw [h.2.2.1]
  simp [sW4]

/-! ### Claim C1: battery discharge and the battery mix account -/

theorem energiesPhase_pv_sums (s : EngineState) (rv : RawVals) (e : ℚ) :
    (energiesPhase s rv e).pv_sums = s.pv_sums := by
  unfold energiesPhase
  dsimp only
  rw [updateEnergy_pv_sums, updateEnergy_pv_sums, updateEnergy_pv_sums,
    updateEnergy_pv_sums, updateEnergy_pv_sums]
  split <;> rfl

theorem energiesPhase_grid_sums (s : EngineState) (rv : RawVals) (e : ℚ) :
    (energiesPhase s rv e).grid_sums = s.grid_sums := by
  unfold energiesPhase
  dsimp only
  rw [updateEnergy_grid_sums, updateEnergy_grid_sums, updateEnergy_grid_sums,
    updateEnergy_grid_sums, updateEnergy_grid_sums]
  split <;> rfl

/-- `_add_mix_energy` with two nonpositive powers (and no battery
redistribution or usage factor) floors both contributions at 0 and so
leaves both sums at their previous (nonnegative) values. -/
theorem addMixEnergy_nonpos_powers (s : EngineState) (k : Key) (pv grid e : ℚ)
    (hpv : pv ≤ 0) (hgrid : grid ≤ 0)
    (h1 : 0 ≤ (s.pv_sums k).getD 0) (h2 : 0 ≤ (s.grid_sums k).getD 0) :
    (addMixEnergy s k (some pv) (some grid) none none e none).pv_sums k =
      some ((s.pv_sums k).getD 0) ∧
    (addMixEnergy s k (some pv) (some grid) none none e none).grid_sums k =
      some ((s.grid_sums k).getD 0) := by
  unfold addMixEnergy
  dsimp only
  simp only [Option.getD_some]
  rw [max_eq_left hpv, max_eq_left hgrid]
  constructor
  · rw [Function.update_same]
    rw [if_neg (by rw [zero_mul, add_zero]; exact not_lt.mpr h1)]
    rw [zero_mul, add_zero]
  · rw [Function.update_same]
    rw [if_neg (by rw [zero_mul, add_zero]; exact not_lt.mpr h2)]
    rw [zero_mul, add_zero]

theorem homeMixPhase_ok_preserves (s : EngineState) (rv : RawVals) (hp : ℚ)
    (bem : Option ℚ) (e : ℚ) (s' : EngineState) (k : Key)
    (heq : homeMixPhase s rv hp bem e = .ok s') (hk : k ≠ Key.home_energy_daily) :
    s'.pv_sums k = s.pv_sums k ∧ s'.grid_sums k = s.grid_sums k := by
  unfold homeMixPhase at heq
  dsimp only at heq
  split at heq
  · cases heq
  · cases heq
    exact ⟨addMixEnergy_pv_sums_other _ _ _ _ _ _ _ _ _ hk,
      addMixEnergy_grid_sums_other _ _ _ _ _ _ _ _ _ hk⟩

theorem carMixPhase_ok_preserves (s : EngineState) (rv : RawVals) (hp : ℚ)
    (bem : Option ℚ) (e : ℚ) (s' : EngineState) (k : Key)
    (heq : carMixPhase s rv hp bem e = .ok s') (hk : k ≠ Key.car_charging_energy) :
    s'.pv_sums k = s.pv_sums k ∧ s'.grid_sums k = s.grid_sums k := by
  unfold carMixPhase at heq
  split at heq
  · cases heq
    exact ⟨rfl, rfl⟩
  · split at heq
    · cases heq
    · cases heq
      exact ⟨addMixEnergy_pv_sums_other _ _ _ _ _ _ _ _ _ hk,
        addMixEnergy_grid_sums_other _ _ _ _ _ _ _ _ _ hk⟩

/-- Claim C1 (amended): in a cycle whose battery power reading is
present and positive (battery discharging), the battery MixAccount's
`pv_sum` and `grid_sum` are left unchanged.  The discharge branch
passes `-battery_power * f` and `-battery_power * (1 - f)` as the pv
and grid powers, where `f` is read from `result["battery_energy_mix"]`
before that key is ever assigned (so `f = 0.0`); both passed powers are
therefore ≤ 0 and `_add_mix_energy` floors them to 0 before
integrating.  Nothing — not 400/100 Wh, not anything — is added. -/
theorem claim1_discharge_leaves_mix_unchanged (s : EngineState)
    (inp : CycleInput) (rv : RawVals) (bp : ℚ)
    (hacq : acquire inp = Except.ok rv) (hbp : rv.battery_power = some bp)
    (hpos : 0 < bp)
    (hpv : 0 ≤ (s.pv_sums Key.battery_energy).getD 0)
    (hgr : 0 ≤ (s.grid_sums Key.battery_energy).getD 0) :
    (updateData s inp).1.pv_sums Key.battery_energy =
      some ((s.pv_sums Key.battery_energy).getD 0) ∧
    (updateData s inp).1.grid_sums Key.battery_energy =
      some ((s.grid_sums Key.battery_energy).getD 0) := by
  unfold updateData
  dsimp only
  rw [hacq]
  dsimp only
  have h7pv : (energiesPhase { s with last_update := inp.now } rv
      (inp.now - s.last_update)).pv_sums = s.pv_sums := energiesPhase_pv_sums _ _ _
  have h7gr : (energiesPhase { s with last_update := inp.now } rv
      (inp.now - s.last_update)).grid_sums = s.grid_sums := energiesPhase_grid_sums _ _ _
  unfold batteryMixPhase
  rw [hbp]
  dsimp only
  rw [if_pos hpos]
  dsimp only
  have h8 := addMixEnergy_nonpos_powers
    (energiesPhase { s with last_update := inp.now } rv (inp.now - s.last_update))
    Key.battery_energy (-bp * (none : Option ℚ).getD 0)
    (-bp * (1 - (none : Option ℚ).getD 0)) (inp.now - s.last_update)
    (by simp) (by simp; linarith) (by rw [h7pv]; exact hpv) (by rw [h7gr]; exact hgr)
  rw [h7pv, h7gr] at h8
  split
  · exact h8
  · rename_i s9 heq9
    have h9 := homeMixPhase_ok_preserves _ _ _ _ _ _ Key.battery_energy heq9 (by decide)
    rw [h8.1, h8.2] at h9
    split
    · exact h9
    · rename_i s10 heq10
      have h10 := carMixPhase_ok_preserves _ _ _ _ _ _ Key.battery_energy heq10 (by decide)
      rw [h9.1, h9.2] at h10
      have h11pv := dailyResetStep_pv_sums_battery inp.now inp.resetInstant s10 _ h10.1
      have h11gr := dailyResetStep_grid_sums_battery inp.now inp.resetInstant s10 _ h10.2
      rw [sessionResetStep_pv_sums, sessionResetStep_grid_sums]
      exact ⟨h11pv, h11gr⟩

/-- A baseline cycle input: clock at hour 1, daily reset instant far in
the future, a grid power sensor reading 100 W, everything else
unconfigured. -/
def quietInp : CycleInput where
  now := 1
  resetInstant := 100
  grid_power := .val 100
  grid_in_energy := .absent
  grid_out_energy := .absent
  battery_power := .absent
  battery_energy := .absent
  pv_power := .absent
  pv_energy := .absent
  car_charging_power := .absent
  car_charging_limit_power := .absent
  car_charging_energy := .absent
  car_connected := .absent
  car_soc := .absent

/-- A state whose battery MixAccount holds 800 Wh of pv and 200 Wh of
grid energy (mix fraction 0.8). -/
def sC1 : EngineState :=
  { initState 0 with
    pv_sums := Function.update (fun _ => none) Key.battery_energy (some 800)
    grid_sums := Function.update (fun _ => none) Key.battery_energy (some 200) }

/-- Counterexample to claim C1 as stated: battery discharging at 500 W
for one elapsed hour with battery mix fraction 0.8 (pv_sum 800,
grid_sum 200) leaves the battery MixAccount's sums at 800 and 200 —
they do not become 1200 and 300 as the claimed +400/+100 Wh would
require. -/
theorem claim1_counterexample :
    (updateData sC1 { quietInp with battery_power := Reading.val 500 }).1.pv_sums
        Key.battery_energy = some 800 ∧
    (updateData sC1 { quietInp with battery_power := Reading.val 500 }).1.grid_sums
        Key.battery_energy = some 200 ∧
    some (800 : ℚ) ≠ some (1200 : ℚ) ∧ some (200 : ℚ) ≠ some (300 : ℚ) := by
  refine ⟨?_, ?_, by norm_num, by norm_num⟩ <;>
  · norm_num [updateData, acquire, acqNum, acqFlag, homePowerOf, updateEnergy,
      addMixEnergy, mixFraction, homeUsageFactor, batteryMixPhase, homeMixPhase,
      carMixPhase, dailyResetFires, dailyResetStep, sessionResetStep, energiesPhase,
      initState, sC1, quietInp, Function.update, bind, Except.bind, pure, Except.pure]
    try simp +decide

/-- Witness for the amended C1 at the concrete discharge cycle. -/
theorem claim1_witness :
    (updateData sC1 { quietInp with battery_power := Reading.val 500 }).1.pv_sums
        Key.battery_energy =
      some ((sC1.pv_sums Key.battery_energy).getD 0) ∧
    (updateData sC1 { quietInp with battery_power := Reading.val 500 }).1.grid_sums
        Key.battery_energy =
      some ((sC1.grid_sums Key.battery_energy).getD 0) :=
  claim1_discharge_leaves_mix_unchanged sC1
    { quietInp with battery_power := Reading.val 500 }
    ⟨some 100, none, none, some 500, none, none, none, none, none, none, none, none⟩
    500 rfl rfl (by norm_num)
    (by simp [sC1, initState])
    (by simp [sC1, initState])

/-! ### Claim C2: the EV session reset -/

/-- A state with an established car-charging baseline of 4000 Wh and no
car connected in the previous cycle. -/
def sC2 : EngineState :=
  { initState 0 with
    energy_baselines := Function.update (fun _ => none) Key.car_charging_energy (some 4000) }

/-- The rising-edge cycle input for C2: the EV reports connected and
the cumulative car-charging sensor reads 5000 Wh. -/
def inpC2 : CycleInput :=
  { quietInp with
    car_connected := FlagReading.val true
    car_charging_energy := Reading.val 5000 }

/-- Claim C2 evaluated at the failing input: on the rising edge of the
EV-connected flag with the cumulative car-charging sensor reading
5000 Wh (baseline 4000 Wh, so the just-computed total is 1000 Wh), the
session reset does zero the total, but it stores 1000 — the account's
daily total captured by `result.update(self._energy_sums)` at line
200 — as the new baseline instead of the raw cumulative reading
5000 Wh that line 275 was presumably meant to take (it reads
`result["car_charging_energy"]`, not `raw_vals["car_charging_energy"]`),
so the new session does not count from zero as the spec requires. -/
theorem claim2_session_reset_eval :
    (updateData sC2 inpC2).1.energy_baselines Key.car_charging_energy = some 1000 ∧
    (updateData sC2 inpC2).1.energy_sums Key.car_charging_energy = some 0 ∧
    some (1000 : ℚ) ≠ some (5000 : ℚ) := by
  refine ⟨?_, ?_, by norm_num⟩ <;>
  · norm_num [updateData, acquire, acqNum, acqFlag, homePowerOf, updateEnergy,
      addMixEnergy, mixFraction, homeUsageFactor, batteryMixPhase, homeMixPhase,
      carMixPhase, dailyResetFires, dailyResetStep, sessionResetStep, energiesPhase,
      initState, sC2, inpC2, quietInp, Function.update, bind, Except.bind, pure, Except.pure]
    try simp +decide

/-! ### Claim C5: abort on unready sensors -/

/-- Claim C5 (amended): when a configured sensor is unready the cycle
aborts with the retryable `UpdateFailed` error and every persisted
field of the engine state — all totals, baselines, mix sums, the
last-reset timestamp and the EV-connected flag — is unchanged; the
in-memory last-update timestamp, however, has already been advanced to
the aborting cycle's time (line 90 runs before the acquisition loop),
so the state is not left *exactly* as it was. -/
theorem claim5_abort_preserves_persisted (s : EngineState) (inp : CycleInput)
    (k : SensorKey) (h : acquire inp = Except.error k) :
    (updateData s inp).1.energy_sums = s.energy_sums ∧
    (updateData s inp).1.energy_baselines = s.energy_baselines ∧
    (updateData s inp).1.pv_sums = s.pv_sums ∧
    (updateData s inp).1.grid_sums = s.grid_sums ∧
    (updateData s inp).1.last_reset = s.last_reset ∧
    (updateData s inp).1.car_connected_was = s.car_connected_was ∧
    (updateData s inp).1.last_update = inp.now ∧
    (updateData s inp).2 = Except.error (CycleError.unready k) := by
  unfold updateData
  dsimp only
  rw [h]
  exact ⟨rfl, rfl, rfl, rfl, rfl, rfl, rfl, rfl⟩

/-- Counterexample to claim C5 as stated: with an unready grid power
sensor at clock hour 1 and a state whose last update was at hour 0, the
aborting cycle still changes the engine's last-update timestamp, so the
state is not left exactly as it was before the cycle. -/
theorem claim5_counterexample :
    (updateData (initState 0) { quietInp with grid_power := Reading.bad }).1.last_update
      ≠ (initState 0).last_update ∧
    (updateData (initState 0) { quietInp with grid_power := Reading.bad }).2 =
      Except.error (CycleError.unready SensorKey.grid_power) := by
  constructor <;>
  · norm_num [updateData, acquire, acqNum, acqFlag, initState, quietInp,
      bind, Except.bind, pure, Except.pure]
    try simp +decide

/-- Witness for the amended C5 at the concrete unready-grid cycle. -/
theorem claim5_witness :
    (updateData (initState 0) { quietInp with grid_power := Reading.bad }).1.energy_sums
      = (initState 0).energy_sums ∧
    (updateData (initState 0) { quietInp with grid_power := Reading.bad }).2 =
      Except.error (CycleError.unready SensorKey.grid_power) := by
  have h := claim5_abort_preserves_persisted (initState 0)
    { quietInp with grid_power := Reading.bad } SensorKey.grid_power rfl
  exact ⟨h.1, h.2.2.2.2.2.2.2⟩

/-! ### Claim C8: nonnegativity of all accumulators -/

/-- Counterexample to claim C8 as stated: one cycle from the zeroed
initial state in which the configured battery energy sensor reads
−5 Wh leaves the `battery_energy` EnergyAccount total negative — line
166 copies the raw reading into `_energy_sums` unchecked. -/
theorem claim8_counterexample :
    ¬ (0 ≤ ((runCycles (initState 0)
        [{ quietInp with battery_energy := Reading.val (-5) }]).energy_sums
        Key.battery_energy).getD 0) := by
  norm_num [runCycles, updateData, acquire, acqNum, acqFlag, homePowerOf,
    updateEnergy, addMixEnergy, mixFraction, homeUsageFactor, batteryMixPhase,
    homeMixPhase, carMixPhase, dailyResetFires, dailyResetStep, sessionResetStep,
    energiesPhase, initState, quietInp, Function.update, bind, Except.bind,
    pure, Except.pure]
  try simp +decide

/-- Claim C8 (amended): for every state reachable from the zeroed
initial state by any sequence of cycles, every EnergyAccount total
*except* the `battery_energy` entry (which mirrors the raw battery
energy sensor and can be whatever the sensor reports) is ≥ 0, and every
MixAccount's pv and grid sums are ≥ 0. -/
theorem claim8_totals_nonneg (t : ℚ) (inps : List CycleInput) :
    NonnegInv (runCycles (initState t) inps) :=
  runCycles_nonnegInv _ _ (initState_nonnegInv t)

/-! ### Claims C9 and C10: the usage-fraction divisions -/

theorem batteryMixPhase_error_eq (s : EngineState) (rv : RawVals) (e : ℚ)
    (err : CycleError) (heq : batteryMixPhase s rv e = .error err) :
    err = CycleError.divZeroBattery := by
  unfold batteryMixPhase at heq
  split at heq
  · cases heq
  · split at heq
    · cases heq
    · dsimp only at heq
      split at heq
      · cases heq
        rfl
      · cases heq

theorem homeMixPhase_error_eq (s : EngineState) (rv : RawVals) (hp : ℚ)
    (bem : Option ℚ) (e : ℚ) (err : CycleError)
    (heq : homeMixPhase s rv hp bem e = .error err) :
    err = CycleError.divZeroHome := by
  unfold homeMixPhase at heq
  dsimp only at heq
  split at heq
  · cases heq
    rfl
  · cases heq

theorem carMixPhase_error_eq (s : EngineState) (rv : RawVals) (hp : ℚ)
    (bem : Option ℚ) (e : ℚ) (err : CycleError)
    (heq : carMixPhase s rv hp bem e = .error err) :
    err = CycleError.divZeroCar := by
  unfold carMixPhase at heq
  split at heq
  · cases heq
  · split at heq
    · cases heq
      rfl
    · cases heq

/-- Claim C9 (amended): in a cycle whose EV charging power reading is
absent, the home-mix usage fraction is `home_power / (home_power + 0)`,
which equals 1 and is well defined *provided* `home_power ≠ 0`; under
that proviso the cycle never aborts with the home-mix division-by-zero
failure.  (The unamended claim is false: when `home_power = 0` the
denominator is 0 and the division raises, see the counterexample.) -/
theorem claim9_ev_absent_fraction_one (s : EngineState) (inp : CycleInput)
    (rv : RawVals) (hacq : acquire inp = Except.ok rv)
    (hcar : rv.car_charging_power = none) (hhp : homePowerOf rv ≠ 0) :
    homeUsageFactor (homePowerOf rv) (rv.car_charging_power.getD 0) = 1 ∧
    (updateData s inp).2 ≠ Except.error CycleError.divZeroHome := by
  constructor
  · rw [hcar]
    unfold homeUsageFactor
    simp only [Option.getD_none, add_zero]
    exact div_self hhp
  · unfold updateData
    dsimp only
    rw [hacq]
    dsimp only
    split
    · rename_i e heq
      have he := batteryMixPhase_error_eq _ _ _ _ heq
      simp [he]
    · rename_i s8 bem heq8
      unfold homeMixPhase
      dsimp only
      rw [hcar]
      rw [if_neg (by simpa using hhp)]
      dsimp only
      unfold carMixPhase
      rw [hcar]
      dsimp only
      simp

/-- Counterexample to claim C9 as stated: with the grid power sensor
reading 0 W and everything else unconfigured (EV charging absent), the
home power is 0, the usage-fraction denominator
`home_power + car_charging_power` is 0, and the cycle aborts with the
home-mix division-by-zero failure — the computation does divide by
zero, and no 1.0 fallback exists in the code. -/
theorem claim9_counterexample :
    (updateData (initState 0) { quietInp with grid_power := Reading.val 0 }).2 =
      Except.error CycleError.divZeroHome := by
  norm_num [updateData, acquire, acqNum, acqFlag, homePowerOf, updateEnergy,
    addMixEnergy, mixFraction, homeUsageFactor, batteryMixPhase, homeMixPhase,
    carMixPhase, dailyResetFires, dailyResetStep, sessionResetStep, energiesPhase,
    initState, quietInp, Function.update, bind, Except.bind, pure, Except.pure]
  try simp +decide

/-- Witness for the amended C9: grid power 100 W, EV charging absent;
the usage fraction is 1 and the cycle does not raise the home-mix
division error. -/
theorem claim9_witness :
    homeUsageFactor
        (homePowerOf ⟨some 100, none, none, none, none, none, none, none, none,
          none, none, none⟩)
        ((⟨some 100, none, none, none, none, none, none, none, none, none, none,
          none⟩ : RawVals).car_charging_power.getD 0) = 1 ∧
    (updateData (initState 0) quietInp).2 ≠ Except.error CycleError.divZeroHome :=
  claim9_ev_absent_fraction_one (initState 0) quietInp
    ⟨some 100, none, none, none, none, none, none, none, none, none, none, none⟩
    rfl rfl (by norm_num [homePowerOf])

/-- Claim C10 (amended): when the battery power reading is present and
nonpositive, the charge branch divides the negated battery power by
`pv_power + grid_power` with no guard; the division is well defined
only when that sum is nonzero, and under that proviso the cycle never
aborts with the battery-mix division-by-zero failure.  (The unamended
claim — that the sum is *never* 0 when the branch runs — is false, see
the counterexample.) -/
theorem claim10_charge_division_guarded (s : EngineState) (inp : CycleInput)
    (rv : RawVals) (bp : ℚ) (hacq : acquire inp = Except.ok rv)
    (hbp : rv.battery_power = some bp) (hneg : ¬ 0 < bp)
    (hd : rv.pv_power.getD 0 + rv.grid_power.getD 0 ≠ 0) :
    (updateData s inp).2 ≠ Except.error CycleError.divZeroBattery := by
  unfold updateData
  dsimp only
  rw [hacq]
  dsimp only
  unfold batteryMixPhase
  rw [hbp]
  try dsimp only
  rw [if_neg hneg]
  try dsimp only
  rw [if_neg hd]
  try dsimp only
  split
  · rename_i e heq
    have he := homeMixPhase_error_eq _ _ _ _ _ _ heq
    simp [he]
  · rename_i s9 heq9
    split
    · rename_i e heq
      have he := carMixPhase_error_eq _ _ _ _ _ _ heq
      simp [he]
    · simp

/-- The C10 counterexample input: battery charging at 200 W (reading
−200 W) while both the pv and grid power sensors read 0 W. -/
def inpC10 : CycleInput :=
  { quietInp with
    grid_power := Reading.val 0
    pv_power := Reading.val 0
    battery_power := Reading.val (-200) }

/-- Counterexample to claim C10 as stated: battery charging at 200 W
(reading −200 W) while both the pv and grid power sensors read 0 W
makes `pv_power + grid_power = 0`, and the charge branch aborts with
its division-by-zero failure. -/
theorem claim10_counterexample :
    (updateData (initState 0) inpC10).2 =
      Except.error CycleError.divZeroBattery := by
  norm_num [updateData, acquire, acqNum, acqFlag, homePowerOf, updateEnergy,
    addMixEnergy, mixFraction, homeUsageFactor, batteryMixPhase, homeMixPhase,
    carMixPhase, dailyResetFires, dailyResetStep, sessionResetStep, energiesPhase,
    initState, quietInp, inpC10, Function.update, bind, Except.bind, pure, Except.pure]
  try simp +decide

/-- Witness for the amended C10: battery charging at 200 W with grid
power 100 W (denominator 100 ≠ 0); the cycle does not raise the
battery-mix division error. -/
theorem claim10_witness :
    (updateData (initState 0)
        { quietInp with battery_power := Reading.val (-200) }).2 ≠
      Except.error CycleError.divZeroBattery :=
  claim10_charge_division_guarded (initState 0)
    { quietInp with battery_power := Reading.val (-200) }
    ⟨some 100, none, none, some (-200), none, none, none, none, none, none, none,
      none⟩
    (-200) rfl rfl (by norm_num) (by norm_num)

/-- Witness for C3: reset instant 10, last reset at 5, cycle times
7, 9, 12, 13 (crossing at index 2): the reset fires at the crossing
cycle and not at the cycle immediately after it. -/
theorem claim3_daily_reset_once_witness :
    (resetRun 10 (initState 5) [7, 9, 12, 13]).getD 2 false = true ∧
    (resetRun 10 (initState 5) [7, 9, 12, 13]).getD 3 false = false := by
  have h := claim3_daily_reset_once 10 (initState 5) [7, 9, 12, 13] 2
    (by norm_num [initState]) (by norm_num)
    (by intro i hi; interval_cases i <;>
      norm_num [List.getD_cons_zero, List.getD_cons_succ])
    (by intro i h1 h2
        simp only [List.length_cons, List.length_nil] at h2
        interval_cases i <;>
          norm_num [List.getD_cons_zero, List.getD_cons_succ])
  refine ⟨(h 2 (by norm_num)).mpr rfl, ?_⟩
  refine Bool.eq_false_iff.mpr (fun hc => ?_)
  have := (h 3 (by norm_num)).mp hc
  norm_num at this
